import Mathlib

/-!
Verification of the `chainstream` package of `zensol-go`, a streaming
subscription client for the Syndica ChainStream JSON-RPC-over-WebSocket feed.

The development shallowly embeds:
* the notification data model (`TransactionNotification` and its nested
  records) translated from the Go struct definitions;
* the accessor methods `Slot`, `Signature`, `Owner` translated from the Go
  methods on `TransactionNotification`;
* the subscription session `(c *C) TransactionsNotifications`, embedded as a
  deterministic interpreter `runSession` driven by an environment trace: the
  environment supplies the outcome of each transport operation (dial, write,
  read) and, for each iteration of the streaming `select` loop, which of the
  three branches (ticker fired / context done / default read) the scheduler
  takes.  The interpreter records the session's observable actions as a list
  of `Effect`s and its final `Outcome`.

Go `defer` semantics are modelled faithfully: the deferred
`wsConn.Close(...)` calls accumulate across `goto RECONNECT` jumps and run
(in LIFO order) only when the function returns; they do NOT run at a
reconnect transition.

Machine integers carry no arithmetic in this code, so Go `int`/`int64` are
modelled as `Int` and `uint64` as `Nat`; `float64` fields (never inspected by
any code under verification) are modelled as `Float`; `*int64` as
`Option Int`; `json.RawMessage` and `interface{}` payloads as opaque
`String`s; `time.Time` as a `Nat` unix timestamp.
-/

/-- Go: `type Config struct { WssApiEndpoint string }`. -/
structure Config where
  WssApiEndpoint : String
deriving Repr, DecidableEq

/-- Go: `type JSONRPCRequest struct {...}`; the `Params interface{}` payload is
opaque to the session (it is only serialized and sent), modelled as `String`. -/
structure JSONRPCRequest where
  JSONRPC : String
  ID : Int
  Method : String
  Params : String
deriving Repr, DecidableEq

/-- Go: `type SubscribeResponse struct { JSONRPC string; ID int; Result int }`.
`Result` is the subscription ID; a JSON message with the field absent decodes
to the zero value `0`. -/
structure SubscribeResponse where
  JSONRPC : String
  ID : Int
  Result : Int
deriving Repr, DecidableEq

/-- Go: `type ContextMetadata struct {...}` (`NodeTime time.Time` modelled as a
`Nat` unix timestamp). -/
structure ContextMetadata where
  Slot : Nat
  SlotStatus : String
  NodeTime : Nat
  IsVote : Bool
  Signature : String
  Index : Int
deriving Repr, DecidableEq

/-- Go: `type MessageHeader struct {...}`. -/
structure MessageHeader where
  NumReadonlySigned : Int
  NumReadonlyUnsigned : Int
  NumSignatures : Int
deriving Repr, DecidableEq

/-- Go: `type AddressTableLookup struct {...}`. -/
structure AddressTableLookup where
  AccountKey : String
  WritableIndexes : List Int
  ReadonlyIndexes : List Int
deriving Repr, DecidableEq

/-- Go: `type CompiledInstruction struct { ProgramIDIndex int; Accounts []int; Data string }`. -/
structure CompiledInstruction where
  ProgramIDIndex : Int
  Accounts : List Int
  Data : String
deriving Repr, DecidableEq

/-- Go: `type TransactionMessage struct {...}`. -/
structure TransactionMessage where
  AccountKeys : List String
  AddressTableLookups : List AddressTableLookup
  Header : MessageHeader
  Instructions : List CompiledInstruction
  RecentBlockhash : String
deriving Repr, DecidableEq

/-- Go: `type EncodedTransaction struct {...}`. -/
structure EncodedTransaction where
  Message : TransactionMessage
  MessageHash : String
  Signatures : List String
deriving Repr, DecidableEq

/-- Go: `type TokenAmountUI struct {...}` (`UIAmount float64` modelled as `Float`;
no verified code inspects it). -/
structure TokenAmountUI where
  Amount : String
  Decimals : Int
  UIAmount : Float
  UIAmountString : String
deriving Repr

/-- Go: `type TokenBalance struct {...}`. -/
structure TokenBalance where
  AccountIndex : Int
  Mint : String
  Owner : String
  ProgramID : String
  UIAmount : TokenAmountUI
deriving Repr

/-- Go: `type InnerInstruction struct {...}`. -/
structure InnerInstruction where
  Index : Int
  Instructions : List CompiledInstruction
deriving Repr, DecidableEq

/-- Go: `type LoadedAddresses struct {...}`. -/
structure LoadedAddresses where
  Writable : List String
  Readonly : List String
deriving Repr, DecidableEq

/-- Go: `type TransactionMeta struct {...}` (`Err json.RawMessage` modelled as
`Option String`, `Rewards []interface{}` as `List String`). -/
structure TransactionMeta where
  Err : Option String
  Fee : Nat
  InnerInstructions : List InnerInstruction
  LoadedAddresses : LoadedAddresses
  LogMessages : List String
  PostBalances : List Nat
  PostTokenBalances : List TokenBalance
  PreBalances : List Nat
  PreTokenBalances : List TokenBalance
  Rewards : List String
deriving Repr

/-- Go: `type TransactionValue struct {...}` (`BlockTime *int64` modelled as
`Option Int`). -/
structure TransactionValue where
  BlockTime : Option Int
  Slot : Nat
  Transaction : EncodedTransaction
  Meta : TransactionMeta
deriving Repr

/-- Go: `type TransactionNotificationData struct {...}`. -/
structure TransactionNotificationData where
  Context : ContextMetadata
  Value : TransactionValue
deriving Repr

/-- Go: `type TransactionNotificationParams struct {...}`. -/
structure TransactionNotificationParams where
  Subscription : Int
  Result : TransactionNotificationData
deriving Repr

/-- Go: `type TransactionNotification struct {...}`: a transaction update
message delivered under an active subscription. -/
structure TransactionNotification where
  JSONRPC : String
  Method : String
  Params : TransactionNotificationParams
deriving Repr

namespace TransactionNotification

/-- Go: `func (t *TransactionNotification) Slot() uint64`. -/
def Slot (t : TransactionNotification) : Nat :=
  t.Params.Result.Value.Slot

/-- Go: `func (t *TransactionNotification) Signature() string`. -/
def Signature (t : TransactionNotification) : String :=
  t.Params.Result.Context.Signature

/-- Go: `func (t *TransactionNotification) Owner() string`: the first account
key in the transaction message, or `""` when the account-key list is empty. -/
def Owner (t : TransactionNotification) : String :=
  match t.Params.Result.Value.Transaction.Message.AccountKeys with
  | [] => ""
  | k :: _ => k

end TransactionNotification

/-! ## The subscription session

`(c *C) TransactionsNotifications(ctx, request, do)` is embedded as an
interpreter over an environment trace.  Each connection attempt (one pass from
the `RECONNECT` label to either a `return` or the next `goto RECONNECT`) is
described by an `Attempt`: the result the transport gives to `websocket.Dial`,
`wsjson.Write`, the subscribe-response `wsjson.Read`, and then a list of
`LoopEvent`s, one per iteration of the `for { select {...} }` loop, saying
which branch the Go scheduler takes and with what result. -/

/-- Result of `websocket.Dial`: a fresh connection (identified by a `Nat` so
that close effects can be attributed) or an error message. -/
inductive DialResult where
  | ok (connId : Nat)
  | fail (msg : String)
deriving Repr, DecidableEq

/-- Result of `wsjson.Write(ctx, wsConn, request)`. -/
inductive WriteResult where
  | ok
  | fail (msg : String)
deriving Repr, DecidableEq

/-- Result of `wsjson.Read(ctx, wsConn, &subResp)`: the decoded
`SubscribeResponse`, or an error message. -/
inductive AckRead where
  | ok (resp : SubscribeResponse)
  | fail (msg : String)
deriving Repr, DecidableEq

/-- Result of `wsjson.Read(ctx, wsConn, &notification)` in the `default`
branch: a successfully decoded notification, or a read/decode error.
`ctxCanceled` records whether
`errors.Is(err, context.Canceled) || ctx.Err() != nil` holds for the error,
i.e. whether the failure stems from the cancellation signal. -/
inductive FrameRead where
  | ok (n : TransactionNotification)
  | fail (ctxCanceled : Bool)
deriving Repr

/-- One iteration of the streaming `select` loop: which branch the scheduler
takes.  `tick` = the 30-second keepalive ticker case (with the result of the
ignored `wsConn.Ping`), `cancel` = the `ctx.Done()` case, `read` = the
`default` branch performing a blocking notification read. -/
inductive LoopEvent where
  | tick (pingOk : Bool)
  | cancel
  | read (r : FrameRead)
deriving Repr

/-- The environment's script for one connection attempt. -/
structure Attempt where
  dial : DialResult
  write : WriteResult
  ack : AckRead
  events : List LoopEvent
deriving Repr

/-- Observable actions of the session, in order. -/
inductive Effect where
  | dialed (endpoint : String)
  | wrote (req : JSONRPCRequest)
  | readAck
  | pinged (connId : Nat)
  | callback (n : TransactionNotification)
  | slept (seconds : Nat)
  | closed (connId : Nat)
deriving Repr

/-- How the session ended: a non-nil error, a nil (graceful) return, or still
running (the environment script ended without the function returning). -/
inductive Outcome where
  | err (msg : String)
  | ok
  | running
deriving Repr, DecidableEq

/-- Keepalive ticker period in seconds: `time.NewTicker(30 * time.Second)`. -/
def keepaliveInterval : Nat := 30

/-- Reconnect backoff in seconds: `time.Sleep(1 * time.Second)`. -/
def reconnectBackoff : Nat := 1

/-- How one streaming loop exits: via the `ctx.Done()` branch or a
cancellation-classified read error (`return nil`), via a non-cancellation
read error (`goto RECONNECT`), or not at all within the scripted events. -/
inductive LoopExit where
  | canceled
  | reconnect
  | streaming
deriving Repr, DecidableEq

/-- The `for { select {...} }` streaming loop of `TransactionsNotifications`,
on connection `conn`.  Ticker branch: `_ = wsConn.Ping(ctx)` (result ignored);
`ctx.Done()` branch: `return nil`; default branch: read a notification, on
success `do(&notification)`, on error `return nil` if the error is
cancellation, else fall through to the reconnect path. -/
def runLoop (conn : Nat) : List LoopEvent → List Effect × LoopExit
  | [] => ([], .streaming)
  | .tick _ :: rest =>
      let r := runLoop conn rest
      (.pinged conn :: r.1, r.2)
  | .cancel :: _ => ([], .canceled)
  | .read (.ok n) :: rest =>
      let r := runLoop conn rest
      (.callback n :: r.1, r.2)
  | .read (.fail true) :: _ => ([], .canceled)
  | .read (.fail false) :: _ => ([], .reconnect)

/-- The deferred `wsConn.Close(...)` calls, run in LIFO order when the
function returns (`deferredConns` lists connection ids in the order they were
opened). -/
def closeAll (deferredConns : List Nat) : List Effect :=
  deferredConns.reverse.map Effect.closed

/-- `(c *C) TransactionsNotifications(ctx, request, do)`, from the
`RECONNECT` label onward.  `deferredConns` carries the connections whose
deferred closes have accumulated so far (empty at the initial call).  Each
recursive call is one `goto RECONNECT`; note that the deferred closes are NOT
run at that jump, only at `return`. -/
def runSession (cfg : Config) (req : JSONRPCRequest) (deferredConns : List Nat) :
    List Attempt → List Effect × Outcome
  | [] => ([], .running)
  | a :: rest =>
    match a.dial with
    | .fail m =>
        ([.dialed cfg.WssApiEndpoint] ++ closeAll deferredConns,
         .err ("cannot connect to chainstream transactions notifications: " ++ m))
    | .ok conn =>
      let opened := deferredConns ++ [conn]
      match a.write with
      | .fail m =>
          ([.dialed cfg.WssApiEndpoint, .wrote req] ++ closeAll opened,
           .err ("cannot send subscribe transactions: " ++ m))
      | .ok =>
        match a.ack with
        | .fail m =>
            ([.dialed cfg.WssApiEndpoint, .wrote req, .readAck] ++ closeAll opened,
             .err ("cannot read subscribe response: " ++ m))
        | .ok resp =>
          if resp.Result = 0 then
            ([.dialed cfg.WssApiEndpoint, .wrote req, .readAck] ++ closeAll opened,
             .err "subscribe error: result is nil")
          else
            let l := runLoop conn a.events
            match l.2 with
            | .canceled =>
                ([.dialed cfg.WssApiEndpoint, .wrote req, .readAck] ++ l.1 ++
                   closeAll opened, .ok)
            | .reconnect =>
                let k := runSession cfg req opened rest
                ([.dialed cfg.WssApiEndpoint, .wrote req, .readAck] ++ l.1 ++
                   [.slept reconnectBackoff] ++ k.1, k.2)
            | .streaming =>
                ([.dialed cfg.WssApiEndpoint, .wrote req, .readAck] ++ l.1, .running)

/-- The notifications handed to the `do` callback, in order. -/
def callbacksOf (es : List Effect) : List TransactionNotification :=
  es.filterMap fun e =>
    match e with
    | .callback n => some n
    | _ => none

/-- Number of `websocket.Dial` calls in an effect trace. -/
def dialCount (es : List Effect) : Nat :=
  (es.filter fun e =>
    match e with
    | .dialed _ => true
    | _ => false).length

/-! ## Instruction classification (modelled from the spec)

The accessor `InstructionType` on `TransactionNotification` is exercised by
the package's tests (`TestInstructionTypeMethod`) but its implementation file
is not among the sources; it is modelled here from the spec. -/

/-- Modelled from the spec: the discriminator byte sequence whose presence at
the start of the first top-level instruction's data labels it `"Buy"`. -/
def buyDiscriminator : List Nat := [102, 6, 61, 18, 1, 218, 235, 234]

/-- Modelled from the spec: the discriminator byte sequence labelling an
instruction `"Sell"`. -/
def sellDiscriminator : List Nat := [51, 230, 133, 164, 1, 127, 131, 173]

/-- Modelled from the spec: the discriminator byte sequence labelling an
instruction `"Create"`. -/
def createDiscriminator : List Nat := [24, 30, 200, 40, 5, 28, 7, 119]

/-- Modelled from the spec: the byte content of an instruction's `Data`
string (the wire encoding of the data field is not described by the spec;
bytes are recovered as the string's character codes). -/
def dataBytes (s : String) : List Nat :=
  s.toList.map Char.toNat

/-- Modelled from the spec: classify a data byte sequence by its leading
discriminator; an unrecognized discriminator yields the `"Unknown"` label
rather than an error. -/
def classifyData (bytes : List Nat) : String :=
  if bytes.take buyDiscriminator.length = buyDiscriminator then "Buy"
  else if bytes.take sellDiscriminator.length = sellDiscriminator then "Sell"
  else if bytes.take createDiscriminator.length = createDiscriminator then "Create"
  else "Unknown"

/-- Modelled from the spec: `func (t *TransactionNotification) InstructionType() string`,
the instruction-classification accessor: classify the first top-level
instruction's data (missing from the sources; only its tests are present). -/
def TransactionNotification.InstructionType (t : TransactionNotification) : String :=
  match t.Params.Result.Value.Transaction.Message.Instructions with
  | [] => "Unknown"
  | i :: _ => classifyData (dataBytes i.Data)

/-! ## Concrete example values (used by witnesses and counterexamples) -/

/-- A `TransactionMeta` with all lists empty (every field is optional on the
wire and decodes to its zero value when absent). -/
def emptyMeta : TransactionMeta :=
  ⟨none, 0, [], ⟨[], []⟩, [], [], [], [], [], []⟩

/-- Build a notification with the given account keys and instructions and
fixed filler metadata. -/
def mkNotification (keys : List String) (instrs : List CompiledInstruction) :
    TransactionNotification :=
  ⟨"2.0", "transactionNotification",
    ⟨1, ⟨⟨330588464, "processed", 0, false, "sig1", 0⟩,
      ⟨none, 330588464, ⟨⟨keys, [], ⟨0, 0, 1⟩, instrs, "blockhashEx"⟩,
        "hashEx", ["sig1"]⟩, emptyMeta⟩⟩⟩⟩

/-- A data string whose bytes begin with `buyDiscriminator`. -/
def buyDataEx : String := String.mk (buyDiscriminator.map Char.ofNat)

/-- A data string whose bytes begin with `sellDiscriminator`. -/
def sellDataEx : String := String.mk (sellDiscriminator.map Char.ofNat)

/-- A data string whose bytes begin with `createDiscriminator`. -/
def createDataEx : String := String.mk (createDiscriminator.map Char.ofNat)

/-! ## Helper predicates and basic lemmas -/

/-- Loop events that neither return nor reconnect: a ticker firing or a
successfully decoded read keep the loop streaming. -/
def nonTerminating : LoopEvent → Bool
  | .tick _ => true
  | .read (.ok _) => true
  | _ => false

/-- Loop events on which `TransactionsNotifications` executes `return nil`:
the `ctx.Done()` branch, or a read error classified as cancellation. -/
def isCancelEvent : LoopEvent → Bool
  | .cancel => true
  | .read (.fail true) => true
  | _ => false

/-- The cancellation signal is observed during an attempt's streaming loop. -/
def cancelSignaled (a : Attempt) : Bool :=
  a.events.any isCancelEvent

/-- A failure of the connect/subscribe sequence: dial fails, the subscribe
write fails, the subscribe-response read fails, or the response carries
subscription id `0` (including the field being absent on the wire). -/
def setupFails (a : Attempt) : Prop :=
  (∃ m, a.dial = .fail m) ∨
  (∃ c m, a.dial = .ok c ∧ a.write = .fail m) ∨
  (∃ c m, a.dial = .ok c ∧ a.write = .ok ∧ a.ack = .fail m) ∨
  (∃ c resp, a.dial = .ok c ∧ a.write = .ok ∧ a.ack = .ok resp ∧ resp.Result = 0)

/-- Close effect recognizer. -/
def isClosed : Effect → Bool
  | .closed _ => true
  | _ => false

/-- The notifications the environment delivers, successfully decoded, before
the loop's first terminating event — read off the event script alone, with no
field of any notification consulted. -/
def decodedUntilExit : List LoopEvent → List TransactionNotification
  | [] => []
  | .tick _ :: rest => decodedUntilExit rest
  | .read (.ok n) :: rest => n :: decodedUntilExit rest
  | .cancel :: _ => []
  | .read (.fail _) :: _ => []

/-- Concrete configuration for witnesses and counterexamples. -/
def cfgEx : Config := ⟨"wss://chainstream.api.syndica.io/api-key/x"⟩

/-- Concrete subscribe request for witnesses and counterexamples. -/
def reqEx : JSONRPCRequest := ⟨"2.0", 1, "chainstream.transactionsSubscribe", "filterPayload"⟩

/-- Concrete successful subscribe acknowledgement (subscription id 7). -/
def respEx : SubscribeResponse := ⟨"2.0", 1, 7⟩

/-- An attempt that subscribes successfully and then hits a non-cancellation
read failure on its first loop iteration. -/
def attStreamFail : Attempt := ⟨.ok 0, .ok, .ok respEx, [.read (.fail false)]⟩

/-- An attempt (on connection 1) whose subscribe write fails. -/
def attWriteFail : Attempt := ⟨.ok 1, .fail "connection reset", .ok respEx, []⟩

/-- An attempt (on connection 1) that subscribes successfully and is then
cancelled. -/
def attOkCancel : Attempt := ⟨.ok 1, .ok, .ok respEx, [.cancel]⟩

/-- A concrete notification, used by witnesses. -/
def notifEx : TransactionNotification :=
  mkNotification ["53CkQzZiYAqwSdYRUX546ekKkNsKQCu9KTu9duvGZnhF", "keyB"] []

/-- A second concrete notification whose fields do not even look like a
transaction notification (wrong jsonrpc, method and subscription id). -/
def oddNotifEx : TransactionNotification :=
  ⟨"1.0", "blocksNotification", ⟨-5, ⟨⟨0, "", 0, true, "", 0⟩,
    ⟨some 3, 0, ⟨⟨[], [], ⟨0, 0, 0⟩, [], ""⟩, "", []⟩, emptyMeta⟩⟩⟩⟩

/-- An attempt whose dial fails. -/
def attDialFail : Attempt := ⟨.fail "dial refused", .ok, .ok respEx, []⟩

/-- An attempt whose subscribe acknowledgement carries result `0`, with a
well-formed notification already queued behind it. -/
def attAckZero : Attempt := ⟨.ok 0, .ok, .ok ⟨"2.0", 1, 0⟩, [.read (.ok oddNotifEx)]⟩

/-- A notification whose first instruction's data starts with the Buy
discriminator. -/
def notifBuy : TransactionNotification := mkNotification [] [⟨4, [1, 2], buyDataEx⟩]

/-- A notification whose first instruction's data starts with the Sell
discriminator. -/
def notifSell : TransactionNotification := mkNotification [] [⟨4, [1, 2], sellDataEx⟩]

/-- A notification whose first instruction's data starts with the Create
discriminator. -/
def notifCreate : TransactionNotification := mkNotification [] [⟨4, [1, 2], createDataEx⟩]

/-- A notification whose first instruction's data matches no known
discriminator. -/
def notifUnknown : TransactionNotification := mkNotification [] [⟨4, [], "AbCdEf"⟩]

/-- Non-nil-error recognizer on outcomes. -/
def isErr : Outcome → Bool
  | .err _ => true
  | _ => false

@[simp] theorem callbacksOf_nil : callbacksOf [] = [] := rfl

@[simp] theorem callbacksOf_dialed (e : String) (es : List Effect) :
    callbacksOf (.dialed e :: es) = callbacksOf es := rfl

@[simp] theorem callbacksOf_wrote (r : JSONRPCRequest) (es : List Effect) :
    callbacksOf (.wrote r :: es) = callbacksOf es := rfl

@[simp] theorem callbacksOf_readAck (es : List Effect) :
    callbacksOf (.readAck :: es) = callbacksOf es := rfl

@[simp] theorem callbacksOf_pinged (c : Nat) (es : List Effect) :
    callbacksOf (.pinged c :: es) = callbacksOf es := rfl

@[simp] theorem callbacksOf_callback (n : TransactionNotification) (es : List Effect) :
    callbacksOf (.callback n :: es) = n :: callbacksOf es := rfl

@[simp] theorem callbacksOf_slept (s : Nat) (es : List Effect) :
    callbacksOf (.slept s :: es) = callbacksOf es := rfl

@[simp] theorem callbacksOf_closed (c : Nat) (es : List Effect) :
    callbacksOf (.closed c :: es) = callbacksOf es := rfl

@[simp] theorem callbacksOf_append (xs ys : List Effect) :
    callbacksOf (xs ++ ys) = callbacksOf xs ++ callbacksOf ys := by
  simp [callbacksOf, List.filterMap_append]

@[simp] theorem callbacksOf_closeAll (cs : List Nat) : callbacksOf (closeAll cs) = [] := by
  simp [callbacksOf, closeAll, List.filterMap_map]

@[simp] theorem dialCount_nil : dialCount [] = 0 := rfl

@[simp] theorem dialCount_dialed (e : String) (es : List Effect) :
    dialCount (.dialed e :: es) = dialCount es + 1 := by
  simp [dialCount, List.filter_cons, Nat.add_comm]

@[simp] theorem dialCount_wrote (r : JSONRPCRequest) (es : List Effect) :
    dialCount (.wrote r :: es) = dialCount es := rfl

@[simp] theorem dialCount_readAck (es : List Effect) :
    dialCount (.readAck :: es) = dialCount es := rfl

@[simp] theorem dialCount_pinged (c : Nat) (es : List Effect) :
    dialCount (.pinged c :: es) = dialCount es := rfl

@[simp] theorem dialCount_callback (n : TransactionNotification) (es : List Effect) :
    dialCount (.callback n :: es) = dialCount es := rfl

@[simp] theorem dialCount_slept (s : Nat) (es : List Effect) :
    dialCount (.slept s :: es) = dialCount es := rfl

@[simp] theorem dialCount_closed (c : Nat) (es : List Effect) :
    dialCount (.closed c :: es) = dialCount es := rfl

@[simp] theorem dialCount_append (xs ys : List Effect) :
    dialCount (xs ++ ys) = dialCount xs + dialCount ys := by
  simp [dialCount, List.filter_append]

@[simp] theorem dialCount_closeAll (cs : List Nat) : dialCount (closeAll cs) = 0 := by
  simp [dialCount, closeAll, List.filter_map]

/-- Splitting the streaming loop at a prefix of non-terminating events: the
prefix contributes its effects and the tail decides the exit. -/
theorem runLoop_append (conn : Nat) (pre tail : List LoopEvent)
    (h : pre.all nonTerminating = true) :
    runLoop conn (pre ++ tail) =
      ((runLoop conn pre).1 ++ (runLoop conn tail).1, (runLoop conn tail).2) := by
  induction pre with
  | nil => simp [runLoop]
  | cons e es ih =>
    simp only [List.all_cons, Bool.and_eq_true] at h
    cases e with
    | tick b => simp [runLoop, ih h.2]
    | cancel => simp [nonTerminating] at h
    | read r =>
      cases r with
      | ok n => simp [runLoop, ih h.2]
      | fail c => simp [nonTerminating] at h

/-- A prefix of non-terminating events leaves the loop streaming. -/
theorem runLoop_nonTerminating (conn : Nat) (evs : List LoopEvent)
    (h : evs.all nonTerminating = true) :
    (runLoop conn evs).2 = .streaming := by
  induction evs with
  | nil => rfl
  | cons e es ih =>
    simp only [List.all_cons, Bool.and_eq_true] at h
    cases e with
    | tick b => simpa [runLoop] using ih h.2
    | cancel => simp [nonTerminating] at h
    | read r =>
      cases r with
      | ok n => simpa [runLoop] using ih h.2
      | fail c => simp [nonTerminating] at h

/-- The loop only exits via `return nil` when a cancellation event occurs. -/
theorem runLoop_canceled_has_cancel (conn : Nat) (evs : List LoopEvent)
    (h : (runLoop conn evs).2 = .canceled) : evs.any isCancelEvent = true := by
  induction evs with
  | nil => simp [runLoop] at h
  | cons e es ih =>
    cases e with
    | tick b =>
      simp only [runLoop] at h
      simp [List.any_cons, isCancelEvent, ih h]
    | cancel => simp [List.any_cons, isCancelEvent]
    | read r =>
      cases r with
      | ok n =>
        simp only [runLoop] at h
        simp [List.any_cons, isCancelEvent, ih h]
      | fail c =>
        cases c with
        | true => simp [List.any_cons, isCancelEvent]
        | false => simp [runLoop] at h

/-- A connect/subscribe failure at the head attempt, with any accumulated
deferred closes, returns a non-nil error at once: no callback runs and no
further dial is attempted. -/
theorem runSession_setupFails (cfg : Config) (req : JSONRPCRequest) (dc : List Nat)
    (a : Attempt) (rest : List Attempt) (h : setupFails a) :
    isErr (runSession cfg req dc (a :: rest)).2 = true ∧
      callbacksOf (runSession cfg req dc (a :: rest)).1 = [] ∧
      dialCount (runSession cfg req dc (a :: rest)).1 = 1 := by
  rcases h with ⟨m, hd⟩ | ⟨c, m, hd, hw⟩ | ⟨c, m, hd, hw, hk⟩ | ⟨c, resp, hd, hw, hk, hz⟩
  · refine ⟨?_, ?_, ?_⟩ <;> simp [runSession, hd, isErr]
  · refine ⟨?_, ?_, ?_⟩ <;> simp [runSession, hd, hw, isErr]
  · refine ⟨?_, ?_, ?_⟩ <;> simp [runSession, hd, hw, hk, isErr]
  · refine ⟨?_, ?_, ?_⟩ <;> simp [runSession, hd, hw, hk, hz, isErr]

/-- Shape of a reconnect transition: after a healthy prefix and a
non-cancellation read failure, the session sleeps for the fixed backoff and
re-runs with the SAME request, the failed connection merely added to the
deferred-close list (not closed here). -/
theorem runSession_reconnect (cfg : Config) (req : JSONRPCRequest) (dc : List Nat)
    (conn : Nat) (resp : SubscribeResponse) (evs : List LoopEvent) (rest : List Attempt)
    (hres : resp.Result ≠ 0) (hevs : evs.all nonTerminating = true) :
    runSession cfg req dc (⟨.ok conn, .ok, .ok resp, evs ++ [.read (.fail false)]⟩ :: rest) =
      ([.dialed cfg.WssApiEndpoint, .wrote req, .readAck] ++ (runLoop conn evs).1 ++
         [.slept reconnectBackoff] ++ (runSession cfg req (dc ++ [conn]) rest).1,
       (runSession cfg req (dc ++ [conn]) rest).2) := by
  have hsplit := runLoop_append conn evs [.read (.fail false)] hevs
  simp [runSession, hres, hsplit, runLoop]

/-- Shape of a cancellation return: after a healthy prefix, a `ctx.Done()`
event returns `nil`, running every deferred close; events scripted after the
cancellation are never consumed. -/
theorem runSession_canceled (cfg : Config) (req : JSONRPCRequest) (dc : List Nat)
    (conn : Nat) (resp : SubscribeResponse) (pre post : List LoopEvent) (rest : List Attempt)
    (hres : resp.Result ≠ 0) (hpre : pre.all nonTerminating = true) :
    runSession cfg req dc (⟨.ok conn, .ok, .ok resp, pre ++ .cancel :: post⟩ :: rest) =
      ([.dialed cfg.WssApiEndpoint, .wrote req, .readAck] ++ (runLoop conn pre).1 ++
         closeAll (dc ++ [conn]), .ok) := by
  have hsplit := runLoop_append conn pre (.cancel :: post) hpre
  simp [runSession, hres, hsplit, runLoop]

/-- The session returns `nil` only when a cancellation event was observed in
some attempt's streaming loop. -/
theorem runSession_ok_has_cancel (cfg : Config) (req : JSONRPCRequest) :
    ∀ (attempts : List Attempt) (dc : List Nat),
      (runSession cfg req dc attempts).2 = .ok →
      attempts.any cancelSignaled = true := by
  intro attempts
  induction attempts with
  | nil => intro dc h; simp [runSession] at h
  | cons a rest ih =>
    intro dc h
    rcases a with ⟨d, w, k, evs⟩
    cases d with
    | fail m => simp [runSession] at h
    | ok conn =>
      cases w with
      | fail m => simp [runSession] at h
      | ok =>
        cases k with
        | fail m => simp [runSession] at h
        | ok resp =>
          by_cases hz : resp.Result = 0
          · simp [runSession, hz] at h
          · cases hE : (runLoop conn evs).2 with
            | canceled =>
              have := runLoop_canceled_has_cancel conn evs hE
              simp [List.any_cons, cancelSignaled, this]
            | reconnect =>
              have h2 : (runSession cfg req (dc ++ [conn]) rest).2 = .ok := by
                simpa [runSession, hz, hE] using h
              simp [List.any_cons, ih (dc ++ [conn]) h2]
            | streaming => simp [runSession, hz, hE] at h

/-- Callback trace of the streaming loop equals the decoded-frame script:
every successfully decoded inbound frame is forwarded, none is inspected. -/
theorem runLoop_callbacks_eq_decoded (conn : Nat) (evs : List LoopEvent) :
    callbacksOf (runLoop conn evs).1 = decodedUntilExit evs := by
  induction evs with
  | nil => rfl
  | cons e es ih =>
    cases e with
    | tick b => simpa [runLoop, decodedUntilExit] using ih
    | cancel => simp [runLoop, decodedUntilExit]
    | read r =>
      cases r with
      | ok n => simpa [runLoop, decodedUntilExit] using ih
      | fail c => cases c <;> simp [runLoop, decodedUntilExit]

/-- A script of successfully decoded frames produces exactly the matching
callback effects, in order, and leaves the loop streaming. -/
theorem runLoop_frames (conn : Nat) (frames : List TransactionNotification) :
    runLoop conn (frames.map fun n => .read (.ok n)) =
      (frames.map Effect.callback, .streaming) := by
  induction frames with
  | nil => rfl
  | cons n ns ih => simp [runLoop, ih]

theorem frames_all_nonTerminating (frames : List TransactionNotification) :
    (frames.map fun n => LoopEvent.read (FrameRead.ok n)).all nonTerminating = true := by
  simp [List.all_map, nonTerminating, Function.comp]

@[simp] theorem callbacksOf_map_callback (ns : List TransactionNotification) :
    callbacksOf (ns.map Effect.callback) = ns := by
  induction ns with
  | nil => rfl
  | cons n t ih => simp [ih]

/-- A ticker firing is invisible to the session apart from the one ping it
sends: outcome and callback trace are unchanged, whatever the ping result. -/
theorem runSession_tick (cfg : Config) (req : JSONRPCRequest) (dc : List Nat)
    (conn : Nat) (resp : SubscribeResponse) (b : Bool) (evs : List LoopEvent)
    (rest : List Attempt) (hres : resp.Result ≠ 0) :
    (runSession cfg req dc (⟨.ok conn, .ok, .ok resp, .tick b :: evs⟩ :: rest)).2 =
      (runSession cfg req dc (⟨.ok conn, .ok, .ok resp, evs⟩ :: rest)).2 ∧
    callbacksOf (runSession cfg req dc (⟨.ok conn, .ok, .ok resp, .tick b :: evs⟩ :: rest)).1 =
      callbacksOf (runSession cfg req dc (⟨.ok conn, .ok, .ok resp, evs⟩ :: rest)).1 := by
  have htick : runLoop conn (.tick b :: evs) =
      (.pinged conn :: (runLoop conn evs).1, (runLoop conn evs).2) := rfl
  cases hE : (runLoop conn evs).2 with
  | canceled => constructor <;> simp [runSession, hres, htick, hE]
  | reconnect => constructor <;> simp [runSession, hres, htick, hE]
  | streaming => constructor <;> simp [runSession, hres, htick, hE]

/-! ## Claim theorems -/

/-- C1 (counterexample): it is false that a subscribe-step failure during a
reconnect attempt is never surfaced to the caller.  Concretely: the first
connection subscribes successfully, a read failure triggers a reconnect, and
on the reconnect attempt the subscribe write fails — `TransactionsNotifications`
then returns that error to the caller instead of reconnecting again. -/
theorem C1_subscribe_failure_on_reconnect_surfaced :
    (runSession cfgEx reqEx [] [attStreamFail, attWriteFail]).2 =
      .err "cannot send subscribe transactions: connection reset" := by decide

/-- C1 (amended): a failure of the subscribe step (dial failing, send failing,
acknowledgement unreadable, or acknowledgement carrying no valid subscription
identifier) during a reconnect attempt terminates the session with a non-nil
error, exactly as on the first connection attempt. -/
theorem C1_amended_reconnect_subscribe_failure_is_fatal (cfg : Config)
    (req : JSONRPCRequest) (conn : Nat) (resp : SubscribeResponse)
    (evs : List LoopEvent) (a1 : Attempt) (rest : List Attempt)
    (hres : resp.Result ≠ 0) (hevs : evs.all nonTerminating = true)
    (hfail : setupFails a1) :
    isErr (runSession cfg req []
      (⟨.ok conn, .ok, .ok resp, evs ++ [.read (.fail false)]⟩ :: a1 :: rest)).2 = true := by
  have h := runSession_reconnect cfg req [] conn resp evs (a1 :: rest) hres hevs
  rw [h]
  exact (runSession_setupFails cfg req ([] ++ [conn]) a1 rest hfail).1

/-- Witness for the amended C1: the concrete run of the counterexample, via
the amended theorem. -/
theorem C1_amended_witness :
    isErr (runSession cfgEx reqEx []
      (⟨.ok 0, .ok, .ok respEx, [] ++ [.read (.fail false)]⟩ ::
        attWriteFail :: [])).2 = true :=
  C1_amended_reconnect_subscribe_failure_is_fatal cfgEx reqEx 0 respEx [] attWriteFail []
    (by decide) rfl (.inr (.inl ⟨1, "connection reset", rfl, rfl⟩))

/-- C2: for a transport that accepts connection and subscription and yields
the scripted well-formed frames, the callback receives exactly those decoded
frames in order — no frame dropped, duplicated or reordered — and the session
ends without error on the subsequent cancellation. -/
theorem C2_in_order_exact_delivery (cfg : Config) (req : JSONRPCRequest)
    (conn : Nat) (resp : SubscribeResponse) (hres : resp.Result ≠ 0)
    (frames : List TransactionNotification) (post : List LoopEvent) :
    callbacksOf (runSession cfg req [] [⟨.ok conn, .ok, .ok resp,
        (frames.map fun n => .read (.ok n)) ++ .cancel :: post⟩]).1 = frames ∧
    (runSession cfg req [] [⟨.ok conn, .ok, .ok resp,
        (frames.map fun n => .read (.ok n)) ++ .cancel :: post⟩]).2 = .ok := by
  have h := runSession_canceled cfg req [] conn resp
    (frames.map fun n => .read (.ok n)) post [] hres (frames_all_nonTerminating frames)
  rw [h]
  constructor
  · simp [runLoop_frames]
  · rfl

/-- Witness for C2 at two concrete frames. -/
theorem C2_witness :
    callbacksOf (runSession cfgEx reqEx [] [⟨.ok 0, .ok, .ok respEx,
        ([notifEx, oddNotifEx].map fun n => .read (.ok n)) ++ .cancel :: []⟩]).1 =
      [notifEx, oddNotifEx] ∧
    (runSession cfgEx reqEx [] [⟨.ok 0, .ok, .ok respEx,
        ([notifEx, oddNotifEx].map fun n => .read (.ok n)) ++ .cancel :: []⟩]).2 = .ok :=
  C2_in_order_exact_delivery cfgEx reqEx 0 respEx (by decide) [notifEx, oddNotifEx] []

/-- C3: the session returns with no error exactly when the cancellation
signal fires: (1) a nil return implies some attempt's streaming loop observed
a cancellation event; (2) when cancellation fires after a healthy streaming
prefix, the session returns `nil` and the callbacks are exactly those decoded
before the cancellation — independent of any further frames queued in the
transport (`post`). -/
theorem C3_cancellation_sole_graceful_exit :
    (∀ (cfg : Config) (req : JSONRPCRequest) (dc : List Nat) (attempts : List Attempt),
      (runSession cfg req dc attempts).2 = .ok → attempts.any cancelSignaled = true) ∧
    (∀ (cfg : Config) (req : JSONRPCRequest) (conn : Nat) (resp : SubscribeResponse)
       (pre post : List LoopEvent), resp.Result ≠ 0 → pre.all nonTerminating = true →
      (runSession cfg req [] [⟨.ok conn, .ok, .ok resp, pre ++ .cancel :: post⟩]).2 = .ok ∧
      callbacksOf (runSession cfg req []
          [⟨.ok conn, .ok, .ok resp, pre ++ .cancel :: post⟩]).1 = decodedUntilExit pre) := by
  constructor
  · exact fun cfg req dc attempts h => runSession_ok_has_cancel cfg req attempts dc h
  · intro cfg req conn resp pre post hres hpre
    have h := runSession_canceled cfg req [] conn resp pre post [] hres hpre
    rw [h]
    exact ⟨rfl, by simp [runLoop_callbacks_eq_decoded]⟩

/-- Witness for C3: a concrete cancelled session (one decoded frame before
cancellation, one more queued behind it that is never delivered), plus the
reverse direction at a concrete attempt list. -/
theorem C3_witness :
    ((runSession cfgEx reqEx [] [⟨.ok 0, .ok, .ok respEx,
        [.read (.ok notifEx)] ++ .cancel :: [.read (.ok oddNotifEx)]⟩]).2 = .ok ∧
     callbacksOf (runSession cfgEx reqEx [] [⟨.ok 0, .ok, .ok respEx,
        [.read (.ok notifEx)] ++ .cancel :: [.read (.ok oddNotifEx)]⟩]).1 =
       decodedUntilExit [.read (.ok notifEx)]) ∧
    [attOkCancel].any cancelSignaled = true :=
  ⟨C3_cancellation_sole_graceful_exit.2 cfgEx reqEx 0 respEx [.read (.ok notifEx)]
      [.read (.ok oddNotifEx)] (by decide) rfl,
   C3_cancellation_sole_graceful_exit.1 cfgEx reqEx [] [attOkCancel] (by decide)⟩

/-- C4: if the initial connection attempt fails, or sending the subscribe
request fails, or the subscribe acknowledgement cannot be read, the function
returns a non-nil error immediately — no retry (exactly one dial) and zero
callback invocations. -/
theorem C4_setup_failure_fatal_no_retry (cfg : Config) (req : JSONRPCRequest)
    (a : Attempt) (rest : List Attempt)
    (h : (∃ m, a.dial = .fail m) ∨
         (∃ c m, a.dial = .ok c ∧ a.write = .fail m) ∨
         (∃ c m, a.dial = .ok c ∧ a.write = .ok ∧ a.ack = .fail m)) :
    isErr (runSession cfg req [] (a :: rest)).2 = true ∧
      callbacksOf (runSession cfg req [] (a :: rest)).1 = [] ∧
      dialCount (runSession cfg req [] (a :: rest)).1 = 1 := by
  refine runSession_setupFails cfg req [] a rest ?_
  rcases h with h | h | h
  · exact .inl h
  · exact .inr (.inl h)
  · exact .inr (.inr (.inl h))

/-- Witness for C4: a failed dial on the very first attempt. -/
theorem C4_witness :
    isErr (runSession cfgEx reqEx [] [attDialFail]).2 = true ∧
      callbacksOf (runSession cfgEx reqEx [] [attDialFail]).1 = [] ∧
      dialCount (runSession cfgEx reqEx [] [attDialFail]).1 = 1 :=
  C4_setup_failure_fatal_no_retry cfgEx reqEx attDialFail []
    (.inl ⟨"dial refused", rfl⟩)

/-- C5: on the first connection attempt, a subscribe acknowledgement whose
result is `0` (the decoded value when the field is absent) makes the function
return the setup error `subscribe error: result is nil`; the streaming loop is
never entered and the callback runs zero times. -/
theorem C5_zero_result_is_setup_error (cfg : Config) (req : JSONRPCRequest)
    (a : Attempt) (rest : List Attempt) (c : Nat) (resp : SubscribeResponse)
    (hd : a.dial = .ok c) (hw : a.write = .ok) (hk : a.ack = .ok resp)
    (hz : resp.Result = 0) :
    (runSession cfg req [] (a :: rest)).2 = .err "subscribe error: result is nil" ∧
      callbacksOf (runSession cfg req [] (a :: rest)).1 = [] := by
  constructor <;> simp [runSession, hd, hw, hk, hz]

/-- Witness for C5: zero-result acknowledgement, with a decodable frame
already queued that is nevertheless never delivered. -/
theorem C5_witness :
    (runSession cfgEx reqEx [] [attAckZero]).2 = .err "subscribe error: result is nil" ∧
      callbacksOf (runSession cfgEx reqEx [] [attAckZero]).1 = [] :=
  C5_zero_result_is_setup_error cfgEx reqEx attAckZero [] 0 ⟨"2.0", 1, 0⟩ rfl rfl rfl rfl

/-- C6 (counterexample): on the transition into reconnection the session does
NOT close the current transport connection.  In this concrete run the effects
between the read failure and the re-dial are exactly `slept 1` — no close —
and the close of connection 0 happens only at the final return (after the
close of connection 1, in LIFO defer order). -/
theorem C6_no_close_at_reconnect :
    (runSession cfgEx reqEx [] [attStreamFail, attOkCancel]).1 =
      [.dialed cfgEx.WssApiEndpoint, .wrote reqEx, .readAck, .slept 1,
       .dialed cfgEx.WssApiEndpoint, .wrote reqEx, .readAck, .closed 1, .closed 0] ∧
    ((runSession cfgEx reqEx [] [attStreamFail, attOkCancel]).1.take 5).all
      (fun e => !isClosed e) = true := by
  constructor <;> rfl

/-- C6 (amended): on every transition into reconnection the session waits the
fixed 1-second backoff and re-enters the connect step with the original,
unmodified subscribe request; the current connection is not closed at that
point — its deferred close is merely queued (`dc ++ [conn]`) and runs only
when the function finally returns. -/
theorem C6_amended_reconnect_keeps_connection_open (cfg : Config)
    (req : JSONRPCRequest) (dc : List Nat) (conn : Nat) (resp : SubscribeResponse)
    (evs : List LoopEvent) (rest : List Attempt)
    (hres : resp.Result ≠ 0) (hevs : evs.all nonTerminating = true) :
    reconnectBackoff = 1 ∧
    runSession cfg req dc (⟨.ok conn, .ok, .ok resp, evs ++ [.read (.fail false)]⟩ :: rest) =
      ([.dialed cfg.WssApiEndpoint, .wrote req, .readAck] ++ (runLoop conn evs).1 ++
         [.slept reconnectBackoff] ++ (runSession cfg req (dc ++ [conn]) rest).1,
       (runSession cfg req (dc ++ [conn]) rest).2) :=
  ⟨rfl, runSession_reconnect cfg req dc conn resp evs rest hres hevs⟩

/-- Witness for the amended C6 at a concrete reconnecting run. -/
theorem C6_amended_witness :
    reconnectBackoff = 1 ∧
    runSession cfgEx reqEx [] (⟨.ok 0, .ok, .ok respEx,
        [] ++ [.read (.fail false)]⟩ :: [attOkCancel]) =
      ([.dialed cfgEx.WssApiEndpoint, .wrote reqEx, .readAck] ++ (runLoop 0 []).1 ++
         [.slept reconnectBackoff] ++ (runSession cfgEx reqEx ([] ++ [0]) [attOkCancel]).1,
       (runSession cfgEx reqEx ([] ++ [0]) [attOkCancel]).2) :=
  C6_amended_reconnect_keeps_connection_open cfgEx reqEx [] 0 respEx [] [attOkCancel]
    (by decide) rfl

/-- C7: the keepalive ticker period is the fixed 30 seconds; each firing sends
exactly one ping frame whose result is ignored — whatever the ping result,
the loop's remaining behavior, the session outcome and the callback trace are
unchanged, and no reconnect or error results from a failed ping. -/
theorem C7_keepalive_ping_ignored :
    keepaliveInterval = 30 ∧
    (∀ (conn : Nat) (b : Bool) (rest : List LoopEvent),
      runLoop conn (.tick b :: rest) =
        (.pinged conn :: (runLoop conn rest).1, (runLoop conn rest).2)) ∧
    (∀ (cfg : Config) (req : JSONRPCRequest) (dc : List Nat) (conn : Nat)
       (resp : SubscribeResponse) (b : Bool) (evs : List LoopEvent)
       (rest : List Attempt), resp.Result ≠ 0 →
      (runSession cfg req dc (⟨.ok conn, .ok, .ok resp, .tick b :: evs⟩ :: rest)).2 =
        (runSession cfg req dc (⟨.ok conn, .ok, .ok resp, evs⟩ :: rest)).2 ∧
      callbacksOf (runSession cfg req dc
          (⟨.ok conn, .ok, .ok resp, .tick b :: evs⟩ :: rest)).1 =
        callbacksOf (runSession cfg req dc (⟨.ok conn, .ok, .ok resp, evs⟩ :: rest)).1) :=
  ⟨rfl, fun _ _ _ => rfl,
   fun cfg req dc conn resp b evs rest hres =>
     runSession_tick cfg req dc conn resp b evs rest hres⟩

/-- Witness for C7: a failed ping (`tick false`) in a concrete cancelled
session changes neither outcome nor callbacks. -/
theorem C7_witness :
    (runSession cfgEx reqEx [] [⟨.ok 0, .ok, .ok respEx, .tick false :: [.cancel]⟩]).2 =
      (runSession cfgEx reqEx [] [⟨.ok 0, .ok, .ok respEx, [.cancel]⟩]).2 ∧
    callbacksOf (runSession cfgEx reqEx []
        [⟨.ok 0, .ok, .ok respEx, .tick false :: [.cancel]⟩]).1 =
      callbacksOf (runSession cfgEx reqEx [] [⟨.ok 0, .ok, .ok respEx, [.cancel]⟩]).1 :=
  C7_keepalive_ping_ignored.2.2 cfgEx reqEx [] 0 respEx false [.cancel] [] (by decide)

/-- C8: the instruction-classification accessor maps the known discriminator
byte sequences at the start of the first top-level instruction's data to
their labels — the Buy discriminator to `"Buy"`, the Sell discriminator to
`"Sell"`, the Create discriminator to `"Create"` — and any unrecognized
discriminator to the `"Unknown"` label, never failing. -/
theorem C8_instruction_classification (t : TransactionNotification)
    (i : CompiledInstruction) (tl : List CompiledInstruction)
    (hins : t.Params.Result.Value.Transaction.Message.Instructions = i :: tl) :
    ((dataBytes i.Data).take 8 = buyDiscriminator → t.InstructionType = "Buy") ∧
    ((dataBytes i.Data).take 8 = sellDiscriminator → t.InstructionType = "Sell") ∧
    ((dataBytes i.Data).take 8 = createDiscriminator → t.InstructionType = "Create") ∧
    ((dataBytes i.Data).take 8 ≠ buyDiscriminator →
     (dataBytes i.Data).take 8 ≠ sellDiscriminator →
     (dataBytes i.Data).take 8 ≠ createDiscriminator →
     t.InstructionType = "Unknown") := by
  have hIT : t.InstructionType = classifyData (dataBytes i.Data) := by
    simp [TransactionNotification.InstructionType, hins]
  have hbl : buyDiscriminator.length = 8 := rfl
  have hsl : sellDiscriminator.length = 8 := rfl
  have hcl : createDiscriminator.length = 8 := rfl
  have hsb : sellDiscriminator ≠ buyDiscriminator := by decide
  have hcb : createDiscriminator ≠ buyDiscriminator := by decide
  have hcs : createDiscriminator ≠ sellDiscriminator := by decide
  refine ⟨fun h => ?_, fun h => ?_, fun h => ?_, fun h1 h2 h3 => ?_⟩
  · rw [hIT]; simp [classifyData, hbl, h]
  · rw [hIT]; simp [classifyData, hbl, hsl, h, hsb]
  · rw [hIT]; simp [classifyData, hbl, hsl, hcl, h, hcb, hcs]
  · rw [hIT]; simp [classifyData, hbl, hsl, hcl, h1, h2, h3]

/-- Witness for C8 on four concrete notifications, one per label. -/
theorem C8_witness :
    notifBuy.InstructionType = "Buy" ∧ notifSell.InstructionType = "Sell" ∧
    notifCreate.InstructionType = "Create" ∧ notifUnknown.InstructionType = "Unknown" :=
  ⟨(C8_instruction_classification notifBuy ⟨4, [1, 2], buyDataEx⟩ [] rfl).1 (by decide),
   (C8_instruction_classification notifSell ⟨4, [1, 2], sellDataEx⟩ [] rfl).2.1 (by decide),
   (C8_instruction_classification notifCreate ⟨4, [1, 2], createDataEx⟩ [] rfl).2.2.1
     (by decide),
   (C8_instruction_classification notifUnknown ⟨4, [], "AbCdEf"⟩ [] rfl).2.2.2
     (by decide) (by decide) (by decide)⟩

/-- C9: the `Owner` accessor returns the empty string when the transaction
message's account-key list is empty and the first account key otherwise; it
is a total function (never fails or panics). -/
theorem C9_owner_accessor (t : TransactionNotification) :
    (t.Params.Result.Value.Transaction.Message.AccountKeys = [] → t.Owner = "") ∧
    (∀ (k : String) (ks : List String),
      t.Params.Result.Value.Transaction.Message.AccountKeys = k :: ks → t.Owner = k) := by
  constructor
  · intro h; simp [TransactionNotification.Owner, h]
  · intro k ks h; simp [TransactionNotification.Owner, h]

/-- Witness for C9 at an empty and a populated account-key list. -/
theorem C9_witness :
    (mkNotification [] []).Owner = "" ∧
    notifEx.Owner = "53CkQzZiYAqwSdYRUX546ekKkNsKQCu9KTu9duvGZnhF" :=
  ⟨(C9_owner_accessor (mkNotification [] [])).1 rfl,
   (C9_owner_accessor notifEx).2 "53CkQzZiYAqwSdYRUX546ekKkNsKQCu9KTu9duvGZnhF"
     ["keyB"] rfl⟩

/-- C10 (implicit): while streaming, every inbound frame that decodes
successfully is forwarded to the callback unconditionally — the callback
trace equals the decoded-frame script, which never consults any notification
field (no jsonrpc, method or subscription check), and in particular a decoded
message not shaped like a transaction notification (`oddNotifEx`) is still
delivered. -/
theorem C10_decodable_frames_always_forwarded :
    (∀ (conn : Nat) (evs : List LoopEvent),
      callbacksOf (runLoop conn evs).1 = decodedUntilExit evs) ∧
    (∀ (conn : Nat) (n : TransactionNotification) (rest : List LoopEvent),
      (runLoop conn (.read (.ok n) :: rest)).1 = .callback n :: (runLoop conn rest).1) ∧
    callbacksOf (runLoop 0 [.read (.ok oddNotifEx), .cancel]).1 = [oddNotifEx] :=
  ⟨runLoop_callbacks_eq_decoded, fun _ _ _ => rfl, rfl⟩
